import Mathlib

/-!
# hdiffpatch-python: verification of the diff container / transcoding core

A shallow embedding of the `hdiffpatch` package's public surface: the
`diff` / `apply` / `recompress` orchestrator over a self-describing diff
container, plus the per-codec configuration value objects
(`ZlibConfig`, `ZStdConfig`, `LzmaConfig`, `Lzma2Config`, `BZip2Config`,
`TampConfig`) with their eager validation.

The package's executable core is a compiled C extension
(`hdiffpatch/_c_extension.pyx`, built by `cythonize.py` / `setup.py`);
it is not part of the Python sources available here, so the definitions
below are modelled from the specification (`spec.md`), pinned wherever
possible by the behavior the unit tests under `tests/` assert.  Byte
sequences are `List Nat`; Python's dynamic values are the `PyValue`
universe; fallible operations return `Except`.
-/

deriving instance DecidableEq for Except

namespace HDiffPatch

/-- Modelled from the spec: the fixed closed set of codec identifiers
`none, zlib, zstd, lzma, lzma2, bzip2, tamp` (spec section 3, and the
`COMPRESSION_*` constants asserted in `tests/test_compression.py`). -/
inductive CompressionType where
  | none
  | zlib
  | zstd
  | lzma
  | lzma2
  | bzip2
  | tamp
deriving DecidableEq

/-- Modelled from the spec: the stable numeric tag persisted for each codec
identifier in the container (spec section 6: stable identifier values for the
7 codec identifiers; exact values implementation-defined but fixed). -/
def codecTag : CompressionType → Nat
  | .none => 0
  | .zlib => 1
  | .zstd => 2
  | .lzma => 3
  | .lzma2 => 4
  | .bzip2 => 5
  | .tamp => 6

/-- Modelled from the spec: recover a codec identifier from its persisted tag;
an unknown tag is a lookup failure (spec section 4.1). -/
def tagToCodec : Nat → Option CompressionType
  | 0 => some .none
  | 1 => some .zlib
  | 2 => some .zstd
  | 3 => some .lzma
  | 4 => some .lzma2
  | 5 => some .bzip2
  | 6 => some .tamp
  | _ => Option.none

/-- Modelled from the spec: the structured error taxonomy of spec section 7
for `diff` / `apply` / `recompress` (`HDiffPatchError` at the Python level):
format error, corruption error, replay error, and the `validate=True`
round-trip safety-net failure inside `diff`. -/
inductive HError where
  | formatError
  | corruptError
  | replayError
  | validateError
deriving DecidableEq

/-- Modelled from the spec: the integrity checksum used by the container and
the delta engine's old-data consistency check (spec sections 4.3 and 6; the
exact tag is implementation-defined but fixed, modelled as length + sum). -/
def checksum (data : List Nat) : Nat :=
  data.length + data.foldl (· + ·) 0

/-- Modelled from the spec: one copy/insert instruction of the opaque
operation stream (spec section 3, Operation Stream). -/
inductive DeltaOp where
  | copy (pos len : Nat)
  | insert (data : List Nat)
deriving DecidableEq

/-- Modelled from the spec: the uncompressed operation stream produced by the
delta engine, carrying the expected-old-data consistency data
(spec section 6: replay fails when `old` does not match what the stream
expects, via an expected-length or checksum mismatch). -/
structure OpStream where
  oldSize : Nat
  oldCheck : Nat
  ops : List DeltaOp
deriving DecidableEq

/-- Length of the longest common prefix of two byte sequences. -/
def lcp : List Nat → List Nat → Nat
  | a :: as, b :: bs => if a = b then lcp as bs + 1 else 0
  | _, _ => 0

/-- Modelled from the spec: the delta engine's `compute_ops(old, new)`
(spec section 6, an external collaborator specified only by its contract).
A simple correct delta: copy the longest common prefix from `old`, insert
the remainder of `new`. -/
def compute_ops (old new : List Nat) : OpStream :=
  { oldSize := old.length
    oldCheck := checksum old
    ops := [DeltaOp.copy 0 (lcp old new), DeltaOp.insert (new.drop (lcp old new))] }

/-- Replay a list of copy/insert instructions against `old`, accumulating the
reconstructed output; an out-of-range copy is a replay failure. -/
def replayOps (old : List Nat) : List DeltaOp → List Nat → Except HError (List Nat)
  | [], acc => .ok acc
  | DeltaOp.copy pos len :: rest, acc =>
      if pos + len ≤ old.length then
        replayOps old rest (acc ++ ((old.drop pos).take len))
      else .error .replayError
  | DeltaOp.insert d :: rest, acc => replayOps old rest (acc ++ d)

/-- Modelled from the spec: the delta engine's `replay_ops(old, ops)`
(spec section 6): fails with a distinguishable replay error when `old` does
not match what the stream expects (expected-length / checksum mismatch),
otherwise reconstructs `new`. -/
def replay_ops (old : List Nat) (s : OpStream) : Except HError (List Nat) :=
  if s.oldSize = old.length ∧ s.oldCheck = checksum old then
    replayOps old s.ops []
  else .error .replayError

/-- Serialize one delta instruction into the opaque byte stream. -/
def encodeOp : DeltaOp → List Nat
  | DeltaOp.copy pos len => [0, pos, len]
  | DeltaOp.insert d => 1 :: d.length :: d

/-- Serialize a list of delta instructions. -/
def encodeOps : List DeltaOp → List Nat
  | [] => []
  | op :: rest => encodeOp op ++ encodeOps rest

/-- Decode exactly `n` delta instructions, consuming the whole input. -/
def decodeOps : Nat → List Nat → Option (List DeltaOp)
  | 0, bs => if bs = [] then some [] else Option.none
  | n + 1, 0 :: pos :: len :: rest =>
      (decodeOps n rest).map (DeltaOp.copy pos len :: ·)
  | n + 1, 1 :: len :: rest =>
      if len ≤ rest.length then
        (decodeOps n (rest.drop len)).map (DeltaOp.insert (rest.take len) :: ·)
      else Option.none
  | _ + 1, _ => Option.none

/-- Modelled from the spec: serialization of the operation stream into the
opaque uncompressed payload wrapped by the container (the encoding itself is
implementation-defined, spec section 1: only how the opaque operation stream
is wrapped is specified). -/
def encodeStream (s : OpStream) : List Nat :=
  s.oldSize :: s.oldCheck :: s.ops.length :: encodeOps s.ops

/-- Inverse of `encodeStream`; a malformed payload yields `none`. -/
def decodeStream : List Nat → Option OpStream
  | sz :: ck :: n :: rest => (decodeOps n rest).map (fun ops => ⟨sz, ck, ops⟩)
  | _ => Option.none

/-- Modelled from the spec: each raw codec's `compress(data, params)`
(spec section 6, external black-box pure function whose only specified
property is that the registry's `decompress` inverts it).  Modelled as a
codec-distinguishing invertible byte coding; configuration parameters tune
only performance and are not observable in the output of the model. -/
def codecCompress (c : CompressionType) (data : List Nat) : List Nat :=
  data.map (· + codecTag c)

/-- Modelled from the spec: the registry's `decompress(data)` for codec `c`
(spec section 6), the inverse of `codecCompress c`. -/
def codecDecompress (c : CompressionType) (data : List Nat) : List Nat :=
  data.map (· - codecTag c)

/-- Modelled from the spec: the container's fixed magic/format marker
(spec section 4.3; the exact value is implementation-defined but fixed,
modelled as the ASCII bytes of `HDIFF`). -/
def magic : List Nat := [72, 68, 73, 70, 70]

/-- Modelled from the spec: serialize a `(codec identifier, compressed
operation stream)` pair into the self-describing blob: magic marker, codec
tag, payload length, payload, integrity tag (spec section 4.3). -/
def serializeContainer (c : CompressionType) (payload : List Nat) : List Nat :=
  magic ++ codecTag c :: payload.length :: payload ++ [checksum payload]

/-- Modelled from the spec: detect and deserialize a blob (spec section 4.3):
bytes not matching the magic marker fail with the format error; a matching
blob whose codec tag is unknown or whose integrity tag fails is corrupt;
otherwise the codec identifier and compressed payload are recovered. -/
def deserializeContainer (blob : List Nat) : Except HError (CompressionType × List Nat) :=
  match blob with
  | 72 :: 68 :: 73 :: 70 :: 70 :: tag :: plen :: rest =>
      match tagToCodec tag with
      | some c =>
          if rest.length = plen + 1 ∧ rest.drop plen = [checksum (rest.take plen)] then
            .ok (c, rest.take plen)
          else .error .corruptError
      | Option.none => .error .corruptError
  | 72 :: 68 :: 73 :: 70 :: 70 :: _ => .error .corruptError
  | _ => .error .formatError

/-- The blob `diff` builds before its optional validation pass: delta engine,
then codec compression, then container serialization (spec section 4.4). -/
def diffRaw (old new : List Nat) (c : CompressionType) : List Nat :=
  serializeContainer c (codecCompress c (encodeStream (compute_ops old new)))

/-- Modelled from the spec: `apply(old, diff)` (spec section 4.4): detect the
codec and decompress via the container codec, then replay the operation
stream against `old`. -/
def apply (old blob : List Nat) : Except HError (List Nat) :=
  match deserializeContainer blob with
  | .error e => .error e
  | .ok (c, payload) =>
      match decodeStream (codecDecompress c payload) with
      | Option.none => .error .corruptError
      | some s => replay_ops old s

/-- Modelled from the spec: `diff(old, new, compression, validate)`
(spec section 4.4): compute the operation stream, compress and serialize it,
and, when `validate` is true, immediately re-apply the result and fail
loudly if it does not reproduce `new`. -/
def diff (old new : List Nat) (c : CompressionType) (validate : Bool) :
    Except HError (List Nat) :=
  let blob := diffRaw old new c
  if validate then
    match apply old blob with
    | .ok r => if r = new then .ok blob else .error .validateError
    | .error e => .error e
  else .ok blob

/-- Modelled from the spec: `recompress(diff, compression)` (spec section
4.4): detect and fully decompress the input blob's operation stream, then
re-serialize that same stream under the requested codec. -/
def recompress (blob : List Nat) (c2 : CompressionType) : Except HError (List Nat) :=
  match deserializeContainer blob with
  | .error e => .error e
  | .ok (c1, payload) =>
      match decodeStream (codecDecompress c1 payload) with
      | Option.none => .error .corruptError
      | some s => .ok (serializeContainer c2 (codecCompress c2 (encodeStream s)))

/-! ## The Python-level dynamic value universe and error taxonomy -/

/-- Modelled from the spec: the zlib strategy enumeration
`{default, filtered, huffman_only, rle, fixed}` (spec section 3). -/
inductive ZlibStrategy where
  | default
  | filtered
  | huffman_only
  | rle
  | fixed
deriving DecidableEq

/-- Modelled from the spec: the dynamic Python values that can reach the
package's boundary: ints, floats, strings, booleans, byte sequences, `None`,
lists, and `ZlibStrategy` enumeration members (spec sections 4.2 and 7;
pinned by the argument types exercised in the config and orchestrator
tests). -/
inductive PyValue where
  | int (n : Int)
  | float (numer denom : Int)
  | str (s : String)
  | bool (b : Bool)
  | bytes (b : List Nat)
  | none
  | list (xs : List PyValue)
  | strategy (s : ZlibStrategy)

/-- Modelled from the spec: Python truthiness of a dynamic value, used by the
bool-coercing `save_window_bits` field of `ZlibConfig`
(`tests/test_zlib_config.py`, truthy/falsy conversion tests). -/
def pyTruthy : PyValue → Bool
  | .int n => n ≠ 0
  | .float p _ => p ≠ 0
  | .str s => s ≠ ""
  | .bool b => b
  | .bytes b => b ≠ []
  | .none => false
  | .list xs => !xs.isEmpty
  | .strategy _ => true

/-- Modelled from the spec: the Python-level error taxonomy of spec section 7,
structured so each category records the data its message carries: a
`TypeError` naming the field and expected type, a `ValueError` naming the
field and its bounds, a `ValueError` naming an invalid enum string, a
`TypeError` for a non-enum non-string strategy, a `ValueError` for an
unknown compression name, a `TypeError` for a wrong-typed function argument,
and the wrapped `HDiffPatchError`. -/
inductive PyErr where
  | typeErr (field expected : String)
  | rangeErr (field : String) (lo hi got : Int)
  | invalidEnum (field got : String)
  | enumTypeErr (field : String)
  | invalidCompression (got : String)
  | argTypeErr (arg : String)
  | hd (e : HError)
deriving DecidableEq

/-- Modelled from the spec: eager validation of one integer config field
against its documented inclusive range: a non-int value is a `TypeError`
naming the expected type, an out-of-range int a `ValueError` naming the
field and bounds (spec sections 4.2 and 7; message shapes pinned by the
config validation tests).  Python booleans are `int` subclasses and pass the
int type check. -/
def validateInt (field : String) (lo hi : Int) (v : PyValue) : Except PyErr Int :=
  match v with
  | .int n => if lo ≤ n ∧ n ≤ hi then .ok n else .error (.rangeErr field lo hi n)
  | .bool b =>
      let n : Int := if b then 1 else 0
      if lo ≤ n ∧ n ≤ hi then .ok n else .error (.rangeErr field lo hi n)
  | _ => .error (.typeErr field "int")

/-- Modelled from the spec: validation of the optional `window` field of
`ZStdConfig`, which additionally accepts `None` for unset
(`tests/test_zstd_config.py`). -/
def validateOptInt (field : String) (lo hi : Int) (v : PyValue) :
    Except PyErr (Option Int) :=
  match v with
  | .none => .ok Option.none
  | _ => (validateInt field lo hi v).map some

/-! ## Config value objects -/

/-- ASCII byte sequence of a string, for writing the tests' byte literals and
for case-insensitive name matching. -/
def ascii (s : String) : List Nat := s.data.map Char.toNat

/-- ASCII lower-casing of one code point. -/
def lowerCode (n : Nat) : Nat := if 65 ≤ n ∧ n ≤ 90 then n + 32 else n

/-- ASCII lower-cased code points of a string. -/
def strLowerCodes (s : String) : List Nat := (ascii s).map lowerCode

/-- Stable index of a strategy member, used in the hash mix. -/
def strategyIdx : ZlibStrategy → Nat
  | .default => 0
  | .filtered => 1
  | .huffman_only => 2
  | .rle => 3
  | .fixed => 4

/-- Lookup of a strategy member from its lower-cased code points. -/
def strategyOfCodes (codes : List Nat) : Option ZlibStrategy :=
  if codes = ascii "default" then some .default
  else if codes = ascii "filtered" then some .filtered
  else if codes = ascii "huffman_only" then some .huffman_only
  else if codes = ascii "rle" then some .rle
  else if codes = ascii "fixed" then some .fixed
  else Option.none

/-- Modelled from the spec: conversion of the `strategy` argument: an
enumeration member is accepted as is, a string is matched case-insensitively
against the member names, an unrecognized string is a `ValueError` naming the
invalid string, and any other value is a `TypeError`
(spec section 3 invariant; `tests/test_zlib_config.py`). -/
def convertStrategy (v : PyValue) : Except PyErr ZlibStrategy :=
  match v with
  | .strategy s => .ok s
  | .str s =>
      match strategyOfCodes (strLowerCodes s) with
      | some e => .ok e
      | Option.none => .error (.invalidEnum "strategy" s)
  | _ => .error (.enumTypeErr "strategy")

/-- Modelled from the spec: the immutable zlib configuration value
(spec section 3): level, memory_level, window, strategy, save_window_bits. -/
structure ZlibConfig where
  level : Int
  memory_level : Int
  window : Int
  strategy : ZlibStrategy
  save_window_bits : Bool
deriving DecidableEq

/-- Modelled from the spec: `ZlibConfig(...)` construction with eager
validation: level in [0,9], memory_level in [1,9], window in [9,15],
strategy enum-or-string, save_window_bits coerced by truthiness
(spec section 3; `tests/test_zlib_config.py`). -/
def mkZlibConfig (level memory_level window strategy save_window_bits : PyValue) :
    Except PyErr ZlibConfig := do
  let l ← validateInt "level" 0 9 level
  let m ← validateInt "memory_level" 1 9 memory_level
  let w ← validateInt "window" 9 15 window
  let s ← convertStrategy strategy
  .ok ⟨l, m, w, s, pyTruthy save_window_bits⟩

/-- Modelled from the spec: the immutable zstd configuration value
(spec section 3): level, optional window, workers. -/
structure ZStdConfig where
  level : Int
  window : Option Int
  workers : Int
deriving DecidableEq

/-- Modelled from the spec: `ZStdConfig(...)` construction with eager
validation: level in [1,22], window in [10,27] or `None`, workers in
[0,200] (spec section 3; `tests/test_zstd_config.py`). -/
def mkZStdConfig (level window workers : PyValue) : Except PyErr ZStdConfig := do
  let l ← validateInt "level" 1 22 level
  let w ← validateOptInt "window" 10 27 window
  let k ← validateInt "workers" 0 200 workers
  .ok ⟨l, w, k⟩

/-- Modelled from the spec: the immutable lzma configuration value
(spec section 3): level, window (dictionary size exponent), thread_num. -/
structure LzmaConfig where
  level : Int
  window : Int
  thread_num : Int
deriving DecidableEq

/-- Modelled from the spec: `LzmaConfig(...)` construction with eager
validation: level in [0,9], thread_num in [1,2].  The spec documents the
window range as [12,17], but the tests pin a wider validated range: the
default window 23 and the `best_compression` preset window 25 construct
successfully while 11, 31 and 50 are rejected
(`tests/test_lzma_config.py`); the range is therefore modelled as
[12,30], the largest dictionary-exponent range consistent with those
assertions. -/
def mkLzmaConfig (level window thread_num : PyValue) : Except PyErr LzmaConfig := do
  let l ← validateInt "level" 0 9 level
  let w ← validateInt "window" 12 30 window
  let t ← validateInt "thread_num" 1 2 thread_num
  .ok ⟨l, w, t⟩

/-- Modelled from the spec: the immutable lzma2 configuration value
(spec section 3): level, window, thread_num. -/
structure Lzma2Config where
  level : Int
  window : Int
  thread_num : Int
deriving DecidableEq

/-- Modelled from the spec: `Lzma2Config(...)` construction with eager
validation: level in [0,9], thread_num in [1,64]; like `LzmaConfig`, the
window range is pinned by the tests as [12,30] rather than the
spec-documented [12,17] (`tests/test_lzma_config.py`). -/
def mkLzma2Config (level window thread_num : PyValue) : Except PyErr Lzma2Config := do
  let l ← validateInt "level" 0 9 level
  let w ← validateInt "window" 12 30 window
  let t ← validateInt "thread_num" 1 64 thread_num
  .ok ⟨l, w, t⟩

/-- Modelled from the spec: the immutable bzip2 configuration value
(spec section 3): level, work_factor. -/
structure BZip2Config where
  level : Int
  work_factor : Int
deriving DecidableEq

/-- Modelled from the spec: `BZip2Config(...)` construction with eager
validation: level in [1,9], work_factor in [0,250]
(spec section 3; `tests/test_bzip2_config.py`). -/
def mkBZip2Config (level work_factor : PyValue) : Except PyErr BZip2Config := do
  let l ← validateInt "level" 1 9 level
  let f ← validateInt "work_factor" 0 250 work_factor
  .ok ⟨l, f⟩

/-- Modelled from the spec: the immutable tamp configuration value
(spec section 3): window. -/
structure TampConfig where
  window : Int
deriving DecidableEq

/-- Modelled from the spec: `TampConfig(...)` construction with eager
validation: window in [8,15] (spec section 3; `tests/test_tamp_config.py`). -/
def mkTampConfig (window : PyValue) : Except PyErr TampConfig := do
  let w ← validateInt "window" 8 15 window
  .ok ⟨w⟩

/-! ## Structural hashes of the config value objects -/

/-- Modelled from the spec: the structural value hash of a `ZlibConfig`
(spec section 9: hash derived from the fields, no reference identity). -/
def hashZlib (c : ZlibConfig) : Int :=
  c.level + 16 * c.memory_level + 256 * c.window
    + 65536 * (strategyIdx c.strategy : Int)
    + 1048576 * (if c.save_window_bits then 1 else 0)

/-- Modelled from the spec: the structural value hash of a `ZStdConfig`. -/
def hashZStd (c : ZStdConfig) : Int :=
  c.level + 256 * (match c.window with | some w => w + 1 | Option.none => 0)
    + 65536 * c.workers

/-- Modelled from the spec: the structural value hash of an `LzmaConfig`. -/
def hashLzma (c : LzmaConfig) : Int :=
  c.level + 256 * c.window + 65536 * c.thread_num

/-- Modelled from the spec: the structural value hash of an `Lzma2Config`. -/
def hashLzma2 (c : Lzma2Config) : Int :=
  1 + c.level + 256 * c.window + 65536 * c.thread_num

/-- Modelled from the spec: the structural value hash of a `BZip2Config`. -/
def hashBZip2 (c : BZip2Config) : Int :=
  c.level + 256 * c.work_factor

/-- Modelled from the spec: the structural value hash of a `TampConfig`. -/
def hashTamp (c : TampConfig) : Int :=
  c.window

/-! ## Python-level wrappers of the orchestrator -/

/-- Map a structured diff/patch error into the Python-level taxonomy. -/
def liftHD : Except HError (List Nat) → Except PyErr (List Nat)
  | .ok r => .ok r
  | .error e => .error (.hd e)

/-- Modelled from the spec: the Python-level `diff(old, new)` boundary:
non-byte-sequence arguments fail with a type error before any work is done
(spec sections 4.4 and 7; `tests/test_create_diff.py`). -/
def diffPy (old new : PyValue) (c : CompressionType) (validate : Bool) :
    Except PyErr (List Nat) :=
  match old, new with
  | .bytes o, .bytes n => liftHD (diff o n c validate)
  | .bytes _, _ => .error (.argTypeErr "new_data")
  | _, _ => .error (.argTypeErr "old_data")

/-- Modelled from the spec: the Python-level `apply(old, diff)` boundary:
non-byte-sequence arguments fail with a type error
(spec sections 4.4 and 7; `tests/test_apply_patch.py`). -/
def applyPy (old diffArg : PyValue) : Except PyErr (List Nat) :=
  match old, diffArg with
  | .bytes o, .bytes d => liftHD (apply o d)
  | .bytes _, _ => .error (.argTypeErr "diff_data")
  | _, _ => .error (.argTypeErr "old_data")

/-- Modelled from the spec: the Python-level `recompress(diff, compression)`
boundary: a non-byte-sequence diff argument fails with a type error
(spec sections 4.4 and 7; `tests/test_recompress.py`). -/
def recompressPy (diffArg : PyValue) (c : CompressionType) :
    Except PyErr (List Nat) :=
  match diffArg with
  | .bytes d => liftHD (recompress d c)
  | _ => .error (.argTypeErr "diff_data")

/-! ## Round-trip lemmas for the delta engine, codecs and container -/

theorem lcp_le_left : ∀ a b : List Nat, lcp a b ≤ a.length
  | [], _ => Nat.le_refl 0
  | _ :: _, [] => Nat.zero_le _
  | x :: xs, y :: ys => by
      simp only [lcp, List.length_cons]
      split
      · exact Nat.succ_le_succ (lcp_le_left xs ys)
      · exact Nat.zero_le _

theorem take_lcp_eq : ∀ a b : List Nat, a.take (lcp a b) = b.take (lcp a b)
  | [], _ => by simp [lcp]
  | _ :: _, [] => by simp [lcp]
  | x :: xs, y :: ys => by
      simp only [lcp]
      split
      · next h => simp [List.take_succ_cons, h, take_lcp_eq xs ys]
      · simp

theorem replay_ops_compute_ops (old new : List Nat) :
    replay_ops old (compute_ops old new) = .ok new := by
  have hle : lcp old new ≤ old.length := lcp_le_left old new
  simp only [replay_ops, compute_ops, and_self, if_pos, replayOps, List.drop_zero,
    Nat.zero_add, if_pos hle, List.nil_append]
  rw [take_lcp_eq old new]
  simp [List.take_append_drop]

theorem decodeOps_encodeOps : ∀ ops : List DeltaOp,
    decodeOps ops.length (encodeOps ops) = some ops
  | [] => rfl
  | DeltaOp.copy pos len :: rest => by
      simp [encodeOps, encodeOp, decodeOps, decodeOps_encodeOps rest]
  | DeltaOp.insert d :: rest => by
      simp only [encodeOps, encodeOp, List.length_cons, List.cons_append, decodeOps,
        List.append_eq]
      rw [if_pos (by simp), List.take_left, List.drop_left, decodeOps_encodeOps rest]
      rfl

theorem decodeStream_encodeStream (s : OpStream) :
    decodeStream (encodeStream s) = some s := by
  simp [encodeStream, decodeStream, decodeOps_encodeOps]

theorem codecDecompress_codecCompress (c : CompressionType) (data : List Nat) :
    codecDecompress c (codecCompress c data) = data := by
  simp [codecCompress, codecDecompress, List.map_map, Function.comp_def]

theorem tagToCodec_codecTag (c : CompressionType) :
    tagToCodec (codecTag c) = some c := by
  cases c <;> rfl

theorem deserializeContainer_serializeContainer (c : CompressionType)
    (payload : List Nat) :
    deserializeContainer (serializeContainer c payload) = .ok (c, payload) := by
  have h2 : (payload ++ [checksum payload]).drop payload.length
      = [checksum ((payload ++ [checksum payload]).take payload.length)] := by
    rw [List.take_left, List.drop_left]
  simp [serializeContainer, deserializeContainer, magic, tagToCodec_codecTag, h2,
    List.take_left]

theorem apply_diffRaw (old new : List Nat) (c : CompressionType) :
    apply old (diffRaw old new c) = .ok new := by
  simp [apply, diffRaw, deserializeContainer_serializeContainer,
    codecDecompress_codecCompress, decodeStream_encodeStream,
    replay_ops_compute_ops]

theorem diff_eq_diffRaw (old new : List Nat) (c : CompressionType) (v : Bool) :
    diff old new c v = .ok (diffRaw old new c) := by
  cases v <;> simp [diff, apply_diffRaw]

theorem recompress_diffRaw (old new : List Nat) (c1 c2 : CompressionType) :
    recompress (diffRaw old new c1) c2 = .ok (diffRaw old new c2) := by
  simp [recompress, diffRaw, deserializeContainer_serializeContainer,
    codecDecompress_codecCompress, decodeStream_encodeStream]

theorem diffRaw_ne_nil (old new : List Nat) (c : CompressionType) :
    diffRaw old new c ≠ [] := by
  simp [diffRaw, serializeContainer, magic]

/-! ## Claim theorems -/

/-- C1: for every pair of byte sequences `old` and `new` (including both
empty and `old = new`) and every codec `c` in the closed set
`{none, zlib, zstd, lzma, lzma2, bzip2, tamp}`, `diff(old, new, c)` returns
a blob and `apply(old, blob)` returns exactly `new`. -/
theorem C1_diff_apply_round_trip (old new : List Nat) (c : CompressionType) :
    ∃ blob, diff old new c true = .ok blob ∧ apply old blob = .ok new :=
  ⟨diffRaw old new c, diff_eq_diffRaw old new c true, apply_diffRaw old new c⟩

/-- C2: for every `old`, `new` and every pair of codecs `c1`, `c2` (including
`c1 = c2`), recompressing the diff blob from `c1` to `c2` succeeds and the
recompressed blob applies to the same result as the original — exactly
`new`; recompression never alters the reconstructed content. -/
theorem C2_recompress_preserves_apply (old new : List Nat)
    (c1 c2 : CompressionType) :
    ∃ b1 b2, diff old new c1 true = .ok b1 ∧ recompress b1 c2 = .ok b2 ∧
      apply old b2 = .ok new ∧ apply old b2 = apply old b1 := by
  refine ⟨diffRaw old new c1, diffRaw old new c2, diff_eq_diffRaw old new c1 true,
    recompress_diffRaw old new c1 c2, apply_diffRaw old new c2, ?_⟩
  rw [apply_diffRaw, apply_diffRaw]

/-- C7: `diff(old, new, validate)` returns, for both values of the `validate`
flag, a blob that `apply` maps back to exactly `new`; the flag changes only
whether the internal round-trip check runs, not the returned blob. -/
theorem C7_validate_flag (old new : List Nat) (c : CompressionType) (v : Bool) :
    (∃ blob, diff old new c v = .ok blob ∧ apply old blob = .ok new) ∧
      diff old new c true = diff old new c false := by
  refine ⟨⟨diffRaw old new c, diff_eq_diffRaw old new c v, apply_diffRaw old new c⟩, ?_⟩
  rw [diff_eq_diffRaw, diff_eq_diffRaw]

/-- C9: for `old = new = b""` and every codec, `diff` returns a non-empty
(header-only) blob, and `apply` of that blob to `b""` returns `b""`. -/
theorem C9_empty_round_trip (c : CompressionType) :
    ∃ blob, diff [] [] c true = .ok blob ∧ blob ≠ [] ∧ apply [] blob = .ok [] :=
  ⟨diffRaw [] [] c, diff_eq_diffRaw [] [] c true, diffRaw_ne_nil [] [] c,
    apply_diffRaw [] [] c⟩

/-- C5: the error categories are distinguished: bytes that do not match the
container format fail in `apply` and `recompress` with the format error;
a blob that parses and decompresses cleanly but whose operation stream does
not match the supplied `old` fails in `apply` with the distinguishable
replay error; and non-byte-sequence arguments to `diff`, `apply` and
`recompress` fail with a type error naming the offending argument.
The concrete inputs are those of `tests/test_apply_patch.py` and
`tests/test_recompress.py`. -/
theorem C5_error_categories :
    apply (ascii "Some data") (ascii "This is not a valid diff")
        = .error .formatError
    ∧ (∃ blob,
        diff (ascii "The quick brown fox jumped over the lazy dog.")
          (ascii "The quick black box jumped over the lazy hog.") .none true
            = .ok blob
        ∧ apply (ascii "Completely different old data.") blob
            = .error .replayError)
    ∧ recompress (ascii "this is not a valid diff") .zlib = .error .formatError
    ∧ diffPy (.str "not bytes") (.bytes [1, 2]) .none true
        = .error (.argTypeErr "old_data")
    ∧ diffPy (.int 123) (.bytes [1, 2]) .none true = .error (.argTypeErr "old_data")
    ∧ diffPy (.bytes [1, 2]) (.str "not bytes") .none true
        = .error (.argTypeErr "new_data")
    ∧ applyPy (.str "not bytes") (.bytes [1, 2]) = .error (.argTypeErr "old_data")
    ∧ applyPy (.int 123) (.bytes [1, 2]) = .error (.argTypeErr "old_data")
    ∧ applyPy (.bytes [1, 2]) (.str "not bytes") = .error (.argTypeErr "diff_data")
    ∧ recompressPy (.str "not bytes") .zlib = .error (.argTypeErr "diff_data")
    ∧ recompressPy (.int 123) .zlib = .error (.argTypeErr "diff_data") := by
  refine ⟨by decide, ⟨diffRaw (ascii "The quick brown fox jumped over the lazy dog.")
    (ascii "The quick black box jumped over the lazy hog.") .none, by decide, by decide⟩,
    by decide, rfl, rfl, rfl, rfl, rfl, rfl, rfl, rfl⟩

/-- C3 counterexample: the claim states that constructing `LzmaConfig` or
`Lzma2Config` with a window outside `[12,17]` fails with a range error, but
construction with the default window 23 succeeds and stores 23 (as
`tests/test_lzma_config.py::test_default_construction` asserts). -/
theorem C3_counterexample :
    mkLzmaConfig (.int 9) (.int 23) (.int 1) = .ok ⟨9, 23, 1⟩
    ∧ mkLzma2Config (.int 9) (.int 23) (.int 1) = .ok ⟨9, 23, 1⟩ := by
  exact ⟨by decide, by decide⟩

/-- C3 (amended): for `LzmaConfig` and `Lzma2Config`, the window field
(dictionary size exponent) is valid exactly on the range `[12,30]`:
constructing with a window in `[12,30]` succeeds and stores that value, and
constructing with a window outside `[12,30]` fails with a range validation
error naming the field. -/
theorem C3_window_range (w : Int) :
    mkLzmaConfig (.int 9) (.int w) (.int 1)
      = (if 12 ≤ w ∧ w ≤ 30 then .ok ⟨9, w, 1⟩
         else .error (.rangeErr "window" 12 30 w))
    ∧ mkLzma2Config (.int 9) (.int w) (.int 1)
      = (if 12 ≤ w ∧ w ≤ 30 then .ok ⟨9, w, 1⟩
         else .error (.rangeErr "window" 12 30 w)) := by
  by_cases h : 12 ≤ w ∧ w ≤ 30 <;>
    simp [mkLzmaConfig, mkLzma2Config, validateInt, h, bind, Except.bind]

/-- C4 counterexample: the claim states that every numeric field rejects
values outside its documented range, but the `Lzma2Config` window field
accepts 25 — outside the documented `[12,17]` — storing it (this is the
`best_compression` preset of `tests/test_lzma_config.py`). -/
theorem C4_counterexample :
    mkLzma2Config (.int 9) (.int 25) (.int 8) = .ok ⟨9, 25, 8⟩ := by decide

/-- C4 (amended): for every codec Config type and every numeric field,
constructing with an integer outside the field's validated range — the
documented range for every field except the lzma/lzma2 window, whose
validated range is `[12,30]` — fails with a range validation error naming
the field and its bounds, while an in-range integer is stored; constructing
with a value of the wrong type (a string or a float for an int field) fails
with a type error naming the expected type.  Validation happens in the
constructor itself, never deferred to use. -/
theorem C4_config_field_validation (n : Int) :
    (mkZlibConfig (.int n) (.int 8) (.int 15) (.strategy .default) (.bool true)
      = if 0 ≤ n ∧ n ≤ 9 then .ok ⟨n, 8, 15, .default, true⟩
        else .error (.rangeErr "level" 0 9 n))
    ∧ (mkZlibConfig (.int 9) (.int n) (.int 15) (.strategy .default) (.bool true)
      = if 1 ≤ n ∧ n ≤ 9 then .ok ⟨9, n, 15, .default, true⟩
        else .error (.rangeErr "memory_level" 1 9 n))
    ∧ (mkZlibConfig (.int 9) (.int 8) (.int n) (.strategy .default) (.bool true)
      = if 9 ≤ n ∧ n ≤ 15 then .ok ⟨9, 8, n, .default, true⟩
        else .error (.rangeErr "window" 9 15 n))
    ∧ (mkZStdConfig (.int n) .none (.int 0)
      = if 1 ≤ n ∧ n ≤ 22 then .ok ⟨n, Option.none, 0⟩
        else .error (.rangeErr "level" 1 22 n))
    ∧ (mkZStdConfig (.int 3) (.int n) (.int 0)
      = if 10 ≤ n ∧ n ≤ 27 then .ok ⟨3, some n, 0⟩
        else .error (.rangeErr "window" 10 27 n))
    ∧ (mkZStdConfig (.int 3) .none (.int n)
      = if 0 ≤ n ∧ n ≤ 200 then .ok ⟨3, Option.none, n⟩
        else .error (.rangeErr "workers" 0 200 n))
    ∧ (mkLzmaConfig (.int n) (.int 23) (.int 1)
      = if 0 ≤ n ∧ n ≤ 9 then .ok ⟨n, 23, 1⟩
        else .error (.rangeErr "level" 0 9 n))
    ∧ (mkLzmaConfig (.int 9) (.int n) (.int 1)
      = if 12 ≤ n ∧ n ≤ 30 then .ok ⟨9, n, 1⟩
        else .error (.rangeErr "window" 12 30 n))
    ∧ (mkLzmaConfig (.int 9) (.int 23) (.int n)
      = if 1 ≤ n ∧ n ≤ 2 then .ok ⟨9, 23, n⟩
        else .error (.rangeErr "thread_num" 1 2 n))
    ∧ (mkLzma2Config (.int n) (.int 23) (.int 1)
      = if 0 ≤ n ∧ n ≤ 9 then .ok ⟨n, 23, 1⟩
        else .error (.rangeErr "level" 0 9 n))
    ∧ (mkLzma2Config (.int 9) (.int n) (.int 1)
      = if 12 ≤ n ∧ n ≤ 30 then .ok ⟨9, n, 1⟩
        else .error (.rangeErr "window" 12 30 n))
    ∧ (mkLzma2Config (.int 9) (.int 23) (.int n)
      = if 1 ≤ n ∧ n ≤ 64 then .ok ⟨9, 23, n⟩
        else .error (.rangeErr "thread_num" 1 64 n))
    ∧ (mkBZip2Config (.int n) (.int 30)
      = if 1 ≤ n ∧ n ≤ 9 then .ok ⟨n, 30⟩
        else .error (.rangeErr "level" 1 9 n))
    ∧ (mkBZip2Config (.int 9) (.int n)
      = if 0 ≤ n ∧ n ≤ 250 then .ok ⟨9, n⟩
        else .error (.rangeErr "work_factor" 0 250 n))
    ∧ (mkTampConfig (.int n)
      = if 8 ≤ n ∧ n ≤ 15 then .ok ⟨n⟩
        else .error (.rangeErr "window" 8 15 n))
    ∧ (mkZlibConfig (.str "6") (.int 8) (.int 15) (.strategy .default) (.bool true)
        = .error (.typeErr "level" "int")
      ∧ mkZlibConfig (.float 13 2) (.int 8) (.int 15) (.strategy .default) (.bool true)
        = .error (.typeErr "level" "int")
      ∧ mkZlibConfig (.int 9) (.str "8") (.int 15) (.strategy .default) (.bool true)
        = .error (.typeErr "memory_level" "int")
      ∧ mkZlibConfig (.int 9) (.int 8) (.str "15") (.strategy .default) (.bool true)
        = .error (.typeErr "window" "int")
      ∧ mkZStdConfig (.str "6") .none (.int 0) = .error (.typeErr "level" "int")
      ∧ mkZStdConfig (.float 13 2) .none (.int 0) = .error (.typeErr "level" "int")
      ∧ mkZStdConfig (.int 3) (.str "20") (.int 0) = .error (.typeErr "window" "int")
      ∧ mkZStdConfig (.int 3) .none (.str "4") = .error (.typeErr "workers" "int")
      ∧ mkLzmaConfig (.str "6") (.int 23) (.int 1) = .error (.typeErr "level" "int")
      ∧ mkLzmaConfig (.float 13 2) (.int 23) (.int 1) = .error (.typeErr "level" "int")
      ∧ mkLzmaConfig (.int 9) (.str "23") (.int 1) = .error (.typeErr "window" "int")
      ∧ mkLzmaConfig (.int 9) (.int 23) (.str "2")
        = .error (.typeErr "thread_num" "int")
      ∧ mkLzma2Config (.str "6") (.int 23) (.int 1) = .error (.typeErr "level" "int")
      ∧ mkLzma2Config (.float 13 2) (.int 23) (.int 1)
        = .error (.typeErr "level" "int")
      ∧ mkLzma2Config (.int 9) (.str "23") (.int 1)
        = .error (.typeErr "window" "int")
      ∧ mkLzma2Config (.int 9) (.int 23) (.str "8")
        = .error (.typeErr "thread_num" "int")
      ∧ mkBZip2Config (.str "6") (.int 30) = .error (.typeErr "level" "int")
      ∧ mkBZip2Config (.float 13 2) (.int 30) = .error (.typeErr "level" "int")
      ∧ mkBZip2Config (.int 9) (.str "30") = .error (.typeErr "work_factor" "int")
      ∧ mkTampConfig (.str "10") = .error (.typeErr "window" "int")
      ∧ mkTampConfig (.float 21 2) = .error (.typeErr "window" "int")) := by
  refine ⟨?_, ?_, ?_, ?_, ?_, ?_, ?_, ?_, ?_, ?_, ?_, ?_, ?_, ?_, ?_, by decide⟩
  · by_cases h : 0 ≤ n ∧ n ≤ 9 <;>
      simp [mkZlibConfig, validateInt, convertStrategy, pyTruthy, h, bind, Except.bind]
  · by_cases h : 1 ≤ n ∧ n ≤ 9 <;>
      simp [mkZlibConfig, validateInt, convertStrategy, pyTruthy, h, bind, Except.bind]
  · by_cases h : 9 ≤ n ∧ n ≤ 15 <;>
      simp [mkZlibConfig, validateInt, convertStrategy, pyTruthy, h, bind, Except.bind]
  · by_cases h : 1 ≤ n ∧ n ≤ 22 <;>
      simp [mkZStdConfig, validateInt, validateOptInt, h, bind, Except.bind, Except.map]
  · by_cases h : 10 ≤ n ∧ n ≤ 27 <;>
      simp [mkZStdConfig, validateInt, validateOptInt, h, bind, Except.bind, Except.map]
  · by_cases h : 0 ≤ n ∧ n ≤ 200 <;>
      simp [mkZStdConfig, validateInt, validateOptInt, h, bind, Except.bind, Except.map]
  · by_cases h : 0 ≤ n ∧ n ≤ 9 <;>
      simp [mkLzmaConfig, validateInt, h, bind, Except.bind]
  · by_cases h : 12 ≤ n ∧ n ≤ 30 <;>
      simp [mkLzmaConfig, validateInt, h, bind, Except.bind]
  · by_cases h : 1 ≤ n ∧ n ≤ 2 <;>
      simp [mkLzmaConfig, validateInt, h, bind, Except.bind]
  · by_cases h : 0 ≤ n ∧ n ≤ 9 <;>
      simp [mkLzma2Config, validateInt, h, bind, Except.bind]
  · by_cases h : 12 ≤ n ∧ n ≤ 30 <;>
      simp [mkLzma2Config, validateInt, h, bind, Except.bind]
  · by_cases h : 1 ≤ n ∧ n ≤ 64 <;>
      simp [mkLzma2Config, validateInt, h, bind, Except.bind]
  · by_cases h : 1 ≤ n ∧ n ≤ 9 <;>
      simp [mkBZip2Config, validateInt, h, bind, Except.bind]
  · by_cases h : 0 ≤ n ∧ n ≤ 250 <;>
      simp [mkBZip2Config, validateInt, h, bind, Except.bind]
  · by_cases h : 8 ≤ n ∧ n ≤ 15 <;>
      simp [mkTampConfig, validateInt, h, bind, Except.bind]

/-- C6: for every Config type, instances with identical field values are
equal and hash identically (value semantics, no reference identity), the
tests' concrete triples collapse to two distinct entries in a deduplicated
collection, and the unequal pair hashes differently; for zlib, an instance
built from the strategy enum member equals one built from the
case-insensitive string name. -/
theorem C6_value_equality_and_hash :
    (∀ c1 c2 : ZlibConfig, c1 = c2 → hashZlib c1 = hashZlib c2)
    ∧ (∀ c1 c2 : ZStdConfig, c1 = c2 → hashZStd c1 = hashZStd c2)
    ∧ (∀ c1 c2 : LzmaConfig, c1 = c2 → hashLzma c1 = hashLzma c2)
    ∧ (∀ c1 c2 : Lzma2Config, c1 = c2 → hashLzma2 c1 = hashLzma2 c2)
    ∧ (∀ c1 c2 : BZip2Config, c1 = c2 → hashBZip2 c1 = hashBZip2 c2)
    ∧ (∀ c1 c2 : TampConfig, c1 = c2 → hashTamp c1 = hashTamp c2)
    ∧ (mkZlibConfig (.int 6) (.int 8) (.int 15) (.strategy .rle) (.bool true)
        = mkZlibConfig (.int 6) (.int 8) (.int 15) (.str "RLE") (.bool true)
      ∧ hashZlib ⟨6, 8, 15, .rle, true⟩ ≠ hashZlib ⟨9, 8, 15, .rle, true⟩
      ∧ ([⟨6, 8, 15, .rle, true⟩, ⟨6, 8, 15, .rle, true⟩,
          (⟨9, 8, 15, .rle, true⟩ : ZlibConfig)].dedup).length = 2
      ∧ hashZStd ⟨6, some 15, 2⟩ ≠ hashZStd ⟨9, some 15, 2⟩
      ∧ ([⟨6, some 15, 2⟩, ⟨6, some 15, 2⟩,
          (⟨9, some 15, 2⟩ : ZStdConfig)].dedup).length = 2
      ∧ hashLzma ⟨6, 12, 1⟩ ≠ hashLzma ⟨9, 12, 1⟩
      ∧ ([⟨6, 12, 1⟩, ⟨6, 12, 1⟩, (⟨9, 12, 1⟩ : LzmaConfig)].dedup).length = 2
      ∧ hashLzma2 ⟨6, 12, 8⟩ ≠ hashLzma2 ⟨9, 12, 8⟩
      ∧ ([⟨6, 12, 8⟩, ⟨6, 12, 8⟩, (⟨9, 12, 8⟩ : Lzma2Config)].dedup).length = 2
      ∧ hashBZip2 ⟨6, 50⟩ ≠ hashBZip2 ⟨9, 50⟩
      ∧ ([⟨6, 50⟩, ⟨6, 50⟩, (⟨9, 50⟩ : BZip2Config)].dedup).length = 2
      ∧ hashTamp ⟨10⟩ ≠ hashTamp ⟨12⟩
      ∧ ([⟨10⟩, ⟨10⟩, (⟨12⟩ : TampConfig)].dedup).length = 2) := by
  refine ⟨?_, ?_, ?_, ?_, ?_, ?_, by decide⟩ <;> · intro c1 c2 h; rw [h]

/-- C6 witness: the value-hash consistency parts instantiated at the tests'
concrete configs, with the equality hypotheses discharged. -/
theorem C6_value_equality_and_hash_witness :
    hashZlib ⟨6, 8, 15, .rle, true⟩ = hashZlib ⟨6, 8, 15, .rle, true⟩
    ∧ hashZStd ⟨6, some 15, 2⟩ = hashZStd ⟨6, some 15, 2⟩
    ∧ hashLzma ⟨6, 12, 1⟩ = hashLzma ⟨6, 12, 1⟩
    ∧ hashLzma2 ⟨6, 12, 8⟩ = hashLzma2 ⟨6, 12, 8⟩
    ∧ hashBZip2 ⟨6, 50⟩ = hashBZip2 ⟨6, 50⟩
    ∧ hashTamp ⟨10⟩ = hashTamp ⟨10⟩ :=
  ⟨C6_value_equality_and_hash.1 _ _ rfl,
    C6_value_equality_and_hash.2.1 _ _ rfl,
    C6_value_equality_and_hash.2.2.1 _ _ rfl,
    C6_value_equality_and_hash.2.2.2.1 _ _ rfl,
    C6_value_equality_and_hash.2.2.2.2.1 _ _ rfl,
    C6_value_equality_and_hash.2.2.2.2.2.1 _ _ rfl⟩

/-- C8: the `ZlibConfig` strategy field accepts either a `ZlibStrategy`
member or its string name case-insensitively, and an unrecognized string
fails with a value error naming the invalid string — both at the converter
and through the constructor. -/
theorem C8_strategy_string_conversion :
    (∀ s : ZlibStrategy, convertStrategy (.strategy s) = .ok s)
    ∧ (convertStrategy (.str "default") = .ok .default
      ∧ convertStrategy (.str "DEFAULT") = .ok .default
      ∧ convertStrategy (.str "filtered") = .ok .filtered
      ∧ convertStrategy (.str "FILTERED") = .ok .filtered
      ∧ convertStrategy (.str "huffman_only") = .ok .huffman_only
      ∧ convertStrategy (.str "HUFFMAN_ONLY") = .ok .huffman_only
      ∧ convertStrategy (.str "rle") = .ok .rle
      ∧ convertStrategy (.str "RLE") = .ok .rle
      ∧ convertStrategy (.str "fixed") = .ok .fixed
      ∧ convertStrategy (.str "FIXED") = .ok .fixed
      ∧ convertStrategy (.str "invalid") = .error (.invalidEnum "strategy" "invalid")
      ∧ mkZlibConfig (.int 9) (.int 8) (.int 15) (.str "rle") (.bool true)
          = .ok ⟨9, 8, 15, .rle, true⟩
      ∧ mkZlibConfig (.int 9) (.int 8) (.int 15) (.str "invalid") (.bool true)
          = .error (.invalidEnum "strategy" "invalid")) := by
  exact ⟨fun s => rfl, by decide⟩

/-- C10: the `save_window_bits` field of `ZlibConfig` never raises a type
error: for every Python value passed, construction succeeds and the stored
field is the value's truthiness (true for truthy values such as `1`,
`"true"`, `[1,2,3]`; false for falsy values such as `0`, `""`, `None`,
`[]`), as `tests/test_zlib_config.py` asserts. -/
theorem C10_save_window_bits_truthiness (v : PyValue) :
    mkZlibConfig (.int 9) (.int 8) (.int 15) (.strategy .default) v
      = .ok ⟨9, 8, 15, .default, pyTruthy v⟩
    ∧ pyTruthy (.bool true) = true ∧ pyTruthy (.int 1) = true
    ∧ pyTruthy (.str "true") = true
    ∧ pyTruthy (.list [.int 1, .int 2, .int 3]) = true
    ∧ pyTruthy (.bool false) = false ∧ pyTruthy (.int 0) = false
    ∧ pyTruthy (.str "") = false ∧ pyTruthy .none = false
    ∧ pyTruthy (.list []) = false := by
  refine ⟨rfl, rfl, by decide, by decide, rfl, rfl, by decide, by decide, rfl, rfl⟩

end HDiffPatch
